import Mathlib

/-!
Verification of the OCR backend adapter and image-normalization pipeline of
the `poils-mlbackend-docker` repository (a FastAPI Hindi-OCR service).

The embedding below is a shallow model of:
  * `app/services/image_processor.py` (class `ImageProcessor`),
  * `app/services/model_service.py` (class `ModelService`),
  * `app/core/config.py` (class `Settings`).

Modelling conventions:
  * A PIL image is modelled by its width, height and colour mode; pixel data
    is not needed by any claim.  PIL operations that keep the pixel grid
    (resize, convert, thresholding) are modelled by their effect on these
    three fields.
  * Python `float` arithmetic in `resize_image`
    (`int(height * (max_dimension / width))`) is modelled as exact rational
    arithmetic floored, i.e. natural-number division, which agrees with the
    truncation Python's `int()` performs on the positive values involved.
  * Wall-clock quantities (`processing_time`) are not modelled.
  * A raised Python exception is an `Except.error`; a normal return is
    `Except.ok`.
-/

/-- PIL colour modes that occur in the pipeline.  `RGB` is 3-channel colour,
`L` is single-channel (the mode `PIL.Image.fromarray` assigns to a 2-D
`uint8` array); `other` stands for any further PIL mode the decoder may
produce (`P`, `RGBA`, `CMYK`, ...). -/
inductive Mode
  | RGB
  | L
  | other (tag : String)
  deriving DecidableEq, Repr

/-- Shallow model of a `PIL.Image.Image`: dimensions and colour mode. -/
structure PILImage where
  width : Nat
  height : Nat
  mode : Mode
  deriving DecidableEq, Repr

/-- `ImageProcessor.resize_image` (image_processor.py lines 63-79):
return the image unchanged when both sides are within `maxDim`; otherwise
set the longer side to `maxDim` and the other side to
`int(short * (maxDim / long))`, modelled as exact floored division.
PIL `Image.resize` keeps the colour mode. -/
def resize_image (maxDim : Nat) (img : PILImage) : PILImage :=
  if img.width ≤ maxDim ∧ img.height ≤ maxDim then
    img
  else if img.height < img.width then
    { img with width := maxDim, height := img.height * maxDim / img.width }
  else
    { img with height := maxDim, width := img.width * maxDim / img.height }

/-- `ImageProcessor.preprocess_for_ocr` (image_processor.py lines 81-111).
The whole OpenCV block sits in a `try`; the oracle `cvOk` says whether it
runs to completion.  On success the result is `Image.fromarray` of a 2-D
`uint8` array (adaptive threshold then denoise, both grid-preserving), so
the output has the same dimensions and mode `L`.  On any exception the
`except` handler returns the input image unchanged. -/
def preprocess_for_ocr (cvOk : Bool) (img : PILImage) : PILImage :=
  if cvOk then { img with mode := Mode.L } else img

/-- The `image.convert('RGB')` step of `prepare_image`
(image_processor.py lines 119-121): convert the mode to RGB when it is not
already RGB; dimensions are unchanged. -/
def convert_rgb (img : PILImage) : PILImage :=
  if img.mode = Mode.RGB then img else { img with mode := Mode.RGB }

/-- `ImageProcessor.prepare_image` (image_processor.py lines 113-134):
convert to RGB, resize, and, when `preprocess` is set, run
`preprocess_for_ocr` (which cannot raise: its body is wrapped in its own
handler, oracle `cvOk`). -/
def prepare_image (maxDim : Nat) (cvOk : Bool) (img : PILImage)
    (preprocess : Bool) : PILImage :=
  let converted := convert_rgb img
  let resized := resize_image maxDim converted
  if preprocess then preprocess_for_ocr cvOk resized else resized

/-- Rounding a positive rational `num / den` to the nearest integer
(half rounds up): what the spec's "rounded to nearest integer pixel" means
for the scaled shorter side. -/
def roundNearest (num den : Nat) : Nat :=
  (2 * num + den) / (2 * den)

/-- Python `s.split(',')` on a list of characters: split at every comma. -/
def splitComma : List Char → List (List Char)
  | [] => [[]]
  | c :: rest =>
    match splitComma rest with
    | [] => [[]]
    | h :: t => if c = ',' then [] :: h :: t else (c :: h) :: t

/-- The data-URL stripping step of `ImageProcessor.base64_to_image`
(image_processor.py lines 42-44): when the string contains a comma, replace
it by `split(',')[1]` (the segment between the first and second comma). -/
def dropDataUrl (s : List Char) : List Char :=
  if ',' ∈ s then (splitComma s).getD 1 [] else s

/-- `ImageProcessor.base64_to_image` (image_processor.py lines 38-50),
parametrised by `decode`, the collaborator
`Image.open(BytesIO(base64.b64decode(-)))` (a pure function of the string it
is given; `none` models the decode failure turned into `ValueError`).
The adapter itself only strips the data-URL part and delegates. -/
def base64_to_image (decode : List Char → Option PILImage) (s : List Char) :
    Option PILImage :=
  decode (dropDataUrl s)

/-!
The remote-API adapter, `ModelService` of `app/services/model_service.py`.
Its HTTP environment is modelled by the outcomes of the two POSTs it can
issue (the authenticated one and the unauthenticated retry); a response body
is modelled by the only features `response.json()` inspection looks at
(top-level list / dict shape and the `generated_text` field).  Bodies are
assumed JSON-parsable: no claim exercises a malformed 200 body.
-/

/-- A JSON object as far as the adapter reads it: its optional
`generated_text` field. -/
structure RespObj where
  generated_text : Option String
  deriving DecidableEq, Repr

/-- The parsed JSON body shapes distinguished by the adapter
(model_service.py lines 92-96 and 123-127): a list, a single object, or any
other JSON value. -/
inductive RespBody
  | list (xs : List RespObj)
  | obj (o : RespObj)
  | otherJson
  deriving DecidableEq, Repr

/-- Text extraction from a 200 body (model_service.py lines 92-96): first
element's `generated_text` for a non-empty list, the field itself for a
dict, and the initial `""` otherwise. -/
def extractGenerated : RespBody → String
  | .list (x :: _) => x.generated_text.getD ""
  | .list [] => ""
  | .obj o => o.generated_text.getD ""
  | .otherJson => ""

/-- Outcome of one `client.post`: a response with status, parsed body and
raw `response.text`, or an `httpx.TimeoutException`. -/
inductive HttpOutcome
  | ok (status : Nat) (body : RespBody) (text : String)
  | timeout
  deriving DecidableEq, Repr

/-- The adapter's HTTP environment: what the authenticated POST would
return, and what the unauthenticated retry POST would return were it
issued. -/
structure ApiEnv where
  resp : HttpOutcome
  retryResp : HttpOutcome
  deriving DecidableEq, Repr

/-- `app/core/config.py` class `Settings`: the configuration fields, with
strings and integers as in the source (floats do not occur). -/
structure Settings where
  HOST : String
  PORT : Nat
  DEBUG : Bool
  HUGGINGFACE_API_KEY : String
  HUGGINGFACE_MODEL : String
  HUGGINGFACE_API_URL : String
  HUGGINGFACE_ROUTER_URL : String
  MAX_IMAGE_SIZE : Nat
  MAX_IMAGE_DIMENSION : Nat
  SUPPORTED_FORMATS : List String
  ALLOWED_ORIGINS : List String
  REQUEST_TIMEOUT : Nat
  API_TIMEOUT : Nat
  deriving DecidableEq, Repr

/-- The attribute names the `Settings` object exposes.  `config.py` sets
`case_sensitive = True` and pydantic attribute lookup is ordinary Python
attribute access, so exactly the declared field names resolve; any other
name raises `AttributeError`. -/
def settingsFieldNames : List String :=
  ["HOST", "PORT", "DEBUG", "HUGGINGFACE_API_KEY", "HUGGINGFACE_MODEL",
   "HUGGINGFACE_API_URL", "HUGGINGFACE_ROUTER_URL", "MAX_IMAGE_SIZE",
   "MAX_IMAGE_DIMENSION", "SUPPORTED_FORMATS", "ALLOWED_ORIGINS",
   "REQUEST_TIMEOUT", "API_TIMEOUT"]

/-- Python `hasattr(settings, name)` for the `Settings` object. -/
def settingsHasAttr (name : String) : Bool :=
  settingsFieldNames.contains name

/-- The state of a `ModelService` instance (model_service.py lines 20-32):
endpoint, key, model name, the loaded flag, and whether the headers dict
carries an `Authorization` entry. -/
structure ModelService where
  api_url : String
  api_key : String
  model_name : String
  is_loaded : Bool
  auth_header : Bool
  deriving DecidableEq, Repr

/-- `ModelService.__init__` (model_service.py lines 20-32): copy the
configuration, set `is_loaded = True` immediately, and add the
`Authorization` header exactly when the key is a truthy string of length
greater than 10. -/
def ModelService.init (s : Settings) : ModelService :=
  { api_url := s.HUGGINGFACE_ROUTER_URL
    api_key := s.HUGGINGFACE_API_KEY
    model_name := s.HUGGINGFACE_MODEL
    is_loaded := true
    auth_header := !s.HUGGINGFACE_API_KEY.isEmpty
      && decide (10 < s.HUGGINGFACE_API_KEY.length) }

/-- `ModelService.load_model` (model_service.py lines 34-48): only logs and
reasserts `is_loaded = True`. -/
def ModelService.load_model (st : ModelService) : ModelService :=
  { st with is_loaded := true }

/-- `ModelService.cleanup` (model_service.py lines 201-204): clears the
loaded flag. -/
def ModelService.cleanup (st : ModelService) : ModelService :=
  { st with is_loaded := false }

/-- A raised Python exception reaching the caller of `extract_text`.  The
adapter only lets `RuntimeError` escape. -/
inductive PyErr
  | runtimeError (msg : String)
  deriving DecidableEq, Repr

/-- The dictionary `extract_text` returns on the non-raising paths
(`processing_time`, a wall-clock float, is not modelled; `error` is the
optional extra key of the 503 dictionary). -/
structure OcrResult where
  text : String
  confidence : ℚ
  device : String
  model : String
  error : Option String
  deriving DecidableEq, Repr

/-- Message of the `RuntimeError` raised when `is_loaded` is false
(model_service.py line 66). -/
def notInitMsg : String := "Service not initialized. Call load_model() first."

/-- Message raised for an `httpx.TimeoutException` (model_service.py
line 163). -/
def timeoutMsg : String := "Request timeout - please try again"

/-- The `error` diagnostic of the 503 result (model_service.py line 153). -/
def loadingMsg : String := "Model is loading, please retry in 20-30 seconds"

/-- What the blanket `except Exception` handler (model_service.py lines
164-166) raises when the 403/410 branch evaluates `settings.API_timeout`
(line 114): `config.py` defines `API_TIMEOUT` only, so Python raises
`AttributeError("\x27Settings\x27 object has no attribute
\x27API_timeout\x27")`, rewrapped with the handler's prefix. -/
def attrErrMsg : String :=
  "OCR processing failed: \x27Settings\x27 object has no attribute \x27API_timeout\x27"

/-- `ModelService.extract_text` (model_service.py lines 50-166).  The
control flow, top to bottom: the not-loaded guard; the authenticated POST
(timeout caught at line 161); the `200` / `403 or 410` / `503` / other
status ladder.  Inside the `403/410` branch the code first evaluates
`settings.API_timeout`; that attribute does not exist, so the branch is
modelled by the lookup on `settingsHasAttr`, whose failing leg produces the
rewrapped `AttributeError` and whose (dead) succeeding leg carries the
retry logic exactly as written at lines 114-142.  `RuntimeError`s raised
inside the `try` (lines 142 and 159) are re-wrapped by the blanket handler
with the prefix `OCR processing failed: `.  `max_length` is accepted but
never read (line 60, "Not used with API, kept for compatibility"). -/
def ModelService.extract_text (st : ModelService) (env : ApiEnv)
    (img : PILImage) (max_length : Nat) : Except PyErr OcrResult :=
  if !st.is_loaded then
    .error (.runtimeError notInitMsg)
  else
    match env.resp with
    | .timeout => .error (.runtimeError timeoutMsg)
    | .ok status body text =>
      if status = 200 then
        .ok { text := (extractGenerated body).trim
              confidence := 0.85
              device := "cloud-api"
              model := st.model_name
              error := none }
      else if status = 403 ∨ status = 410 then
        if settingsHasAttr "API_timeout" then
          match env.retryResp with
          | .timeout => .error (.runtimeError timeoutMsg)
          | .ok rstatus rbody rtext =>
            if rstatus = 200 then
              .ok { text := (extractGenerated rbody).trim
                    confidence := 0.85
                    device := "cloud-api-free"
                    model := st.model_name
                    error := none }
            else
              .error (.runtimeError
                ("OCR processing failed: API request failed even without auth: "
                  ++ toString rstatus ++ " - " ++ rtext.take 200))
        else
          .error (.runtimeError attrErrMsg)
      else if status = 503 then
        .ok { text := ""
              confidence := 0
              device := "cloud-api"
              model := st.model_name
              error := some loadingMsg }
      else
        .error (.runtimeError
          ("OCR processing failed: API request failed: "
            ++ toString status ++ " - " ++ text))

/-- One outbound HTTP POST of the adapter.  The request body is the PNG
serialization of the image (`image.save(buffer, format='PNG')`), a
deterministic function of the image, represented here by the image itself;
`auth` records whether the headers carry `Authorization`. -/
structure HttpRequest where
  url : String
  auth : Bool
  contentType : String
  body : PILImage
  deriving DecidableEq, Repr

/-- The ordered list of POSTs `extract_text` issues, read off the same
control flow: none when the not-loaded guard trips; the authenticated POST
otherwise; and the unauthenticated retry POST only on the dead
`settingsHasAttr "API_timeout"` leg of the 403/410 branch (the
`AttributeError` fires before `client.post` at line 115 runs). -/
def ModelService.requests (st : ModelService) (env : ApiEnv)
    (img : PILImage) (max_length : Nat) : List HttpRequest :=
  if !st.is_loaded then
    []
  else
    { url := st.api_url, auth := st.auth_header,
      contentType := "image/png", body := img } ::
      (match env.resp with
       | .timeout => []
       | .ok status _ _ =>
         if status = 200 then []
         else if status = 403 ∨ status = 410 then
           if settingsHasAttr "API_timeout" then
             [{ url := st.api_url, auth := false,
                contentType := "image/png", body := img }]
           else []
         else [])

/-- One entry of the list `batch_extract` returns: the per-image success
dictionary, or the error dictionary `{"text": "", "error": str(e),
"processing_time": 0, "confidence": 0.0}` built at lines 192-197. -/
inductive BatchEntry
  | ok (r : OcrResult)
  | err (text : String) (error : String) (confidence : ℚ)
  deriving DecidableEq, Repr

/-- `ModelService.batch_extract` (model_service.py lines 168-199): iterate
over the images in order (each paired with its own HTTP environment),
appending the `extract_text` result, and on an exception appending the
error dictionary instead of aborting. -/
def ModelService.batch_extract (st : ModelService) (ml : Nat) :
    List (PILImage × ApiEnv) → List BatchEntry
  | [] => []
  | (img, env) :: rest =>
    (match ModelService.extract_text st env img ml with
     | .ok r => BatchEntry.ok r
     | .error (.runtimeError m) => BatchEntry.err "" m 0)
      :: ModelService.batch_extract st ml rest

/-- The tagging `batch_extract` applies to one `extract_text` outcome. -/
def entryOf : Except PyErr OcrResult → BatchEntry
  | .ok r => .ok r
  | .error (.runtimeError m) => .err "" m 0

/-!
Concrete fixtures for witnesses and counterexamples: the configuration
defaults of `config.py` with a long API key set, a small RGB image, and a
handful of HTTP environments.
-/

/-- Concrete `Settings`: the defaults of config.py, with an API key long
enough that `__init__` adds the `Authorization` header. -/
def s0 : Settings :=
  { HOST := "0.0.0.0"
    PORT := 8000
    DEBUG := false
    HUGGINGFACE_API_KEY := "hf_0123456789abcdef"
    HUGGINGFACE_MODEL := "sabaridsnfuji/Hindi_Offline_Handwritten_OCR"
    HUGGINGFACE_API_URL :=
      "https://api-inference.huggingface.co/models/sabaridsnfuji/Hindi_Offline_Handwritten_OCR"
    HUGGINGFACE_ROUTER_URL :=
      "https://api-inference.huggingface.co/models/sabaridsnfuji/Hindi_Offline_Handwritten_OCR"
    MAX_IMAGE_SIZE := 10485760
    MAX_IMAGE_DIMENSION := 2048
    SUPPORTED_FORMATS := ["image/jpeg", "image/png", "image/jpg"]
    ALLOWED_ORIGINS := ["*"]
    REQUEST_TIMEOUT := 60
    API_TIMEOUT := 30 }

/-- A freshly constructed service (what the process holds before and after
`load_model`, which does not change the state). -/
def svc0 : ModelService := ModelService.init s0

/-- A small canonical RGB image. -/
def img0 : PILImage := { width := 640, height := 480, mode := Mode.RGB }

/-- A 200 body carrying generated text. -/
def okBody : RespBody := RespBody.obj { generated_text := some "hello" }

/-- Authenticated POST rejected with 403; the unauthenticated retry would
answer 200 with generated text. -/
def env403then200 : ApiEnv :=
  { resp := HttpOutcome.ok 403 RespBody.otherJson "denied"
    retryResp := HttpOutcome.ok 200 okBody "" }

/-- A 500 answer to the authenticated POST. -/
def env500 : ApiEnv :=
  { resp := HttpOutcome.ok 500 RespBody.otherJson "boom"
    retryResp := HttpOutcome.ok 200 okBody "" }

/-- A 404 answer to the authenticated POST. -/
def env404 : ApiEnv :=
  { resp := HttpOutcome.ok 404 RespBody.otherJson "Not Found"
    retryResp := HttpOutcome.ok 200 okBody "" }

/-- A 503 model-still-loading answer. -/
def env503 : ApiEnv :=
  { resp := HttpOutcome.ok 503 RespBody.otherJson ""
    retryResp := HttpOutcome.ok 200 okBody "" }

/-- A successful 200 answer. -/
def env200 : ApiEnv :=
  { resp := HttpOutcome.ok 200 okBody ""
    retryResp := HttpOutcome.ok 200 RespBody.otherJson "" }

/-!
Theorems.  Auxiliary lemmas come first, then one theorem per claim (with
its witness or counterexample where required).
-/

/-- `splitComma` never returns the empty list. -/
theorem splitComma_ne_nil (s : List Char) : splitComma s ≠ [] := by
  cases s with
  | nil => simp [splitComma]
  | cons c rest =>
    simp only [splitComma]
    cases h : splitComma rest with
    | nil => simp
    | cons h t =>
      by_cases hc : c = ','
      · simp [hc]
      · simp [hc]

/-- On a comma-free string, Python split yields the one-element list. -/
theorem splitComma_no_comma (s : List Char) (h : ',' ∉ s) :
    splitComma s = [s] := by
  induction s with
  | nil => rfl
  | cons c rest ih =>
    have hc : c ≠ ',' := fun hc => h (hc ▸ List.mem_cons_self c rest)
    have hrest : ',' ∉ rest := fun hm => h (List.mem_cons_of_mem c hm)
    simp [splitComma, ih hrest, hc]

/-- Splitting `q ++ ',' :: p` for comma-free `q` peels off `q`. -/
theorem splitComma_append (q p : List Char) (hq : ',' ∉ q) :
    splitComma (q ++ ',' :: p) = q :: splitComma p := by
  induction q with
  | nil =>
    simp only [List.nil_append, splitComma]
    cases h : splitComma p with
    | nil => exact absurd h (splitComma_ne_nil p)
    | cons h t => simp
  | cons c rest ih =>
    have hc : c ≠ ',' := fun hc => hq (hc ▸ List.mem_cons_self c rest)
    have hrest : ',' ∉ rest := fun hm => hq (List.mem_cons_of_mem c hm)
    simp [splitComma, ih hrest, hc]

/-- `resize_image` keeps the colour mode (PIL `Image.resize` does). -/
theorem resize_image_mode (maxDim : Nat) (img : PILImage) :
    (resize_image maxDim img).mode = img.mode := by
  unfold resize_image
  split_ifs <;> rfl

/-- The `convert('RGB')` step always yields mode RGB. -/
theorem convert_rgb_mode (img : PILImage) :
    (convert_rgb img).mode = Mode.RGB := by
  unfold convert_rgb
  split_ifs with h
  · exact h
  · rfl

/-- `batch_extract` is the in-order map of the tagged `extract_text`
outcome over the batch. -/
theorem batch_extract_eq_map (st : ModelService) (ml : Nat)
    (items : List (PILImage × ApiEnv)) :
    ModelService.batch_extract st ml items
      = items.map (fun p => entryOf (ModelService.extract_text st p.2 p.1 ml)) := by
  induction items with
  | nil => rfl
  | cons hd tl ih =>
    obtain ⟨a, b⟩ := hd
    simp only [ModelService.batch_extract, List.map, ih]
    cases hx : ModelService.extract_text st b a ml with
    | ok r => rfl
    | error e =>
      cases e with
      | runtimeError m => rfl

/-- Claim C5 (amended): if width or height exceeds `maxDim`, the output's
longer side equals exactly `maxDim` and the shorter side is the
proportionally scaled value rounded DOWN to an integer pixel (Python
`int()` truncates); if both dimensions are at most `maxDim` the image is
returned unchanged (never upscaled). -/
theorem resize_image_spec (maxDim : Nat) (img : PILImage) :
    (img.width ≤ maxDim ∧ img.height ≤ maxDim →
      resize_image maxDim img = img) ∧
    (maxDim < img.width ∨ maxDim < img.height →
      (img.height < img.width →
        resize_image maxDim img =
          { width := maxDim, height := img.height * maxDim / img.width,
            mode := img.mode }) ∧
      (img.width ≤ img.height →
        resize_image maxDim img =
          { width := img.width * maxDim / img.height, height := maxDim,
            mode := img.mode }) ∧
      max (resize_image maxDim img).width (resize_image maxDim img).height
        = maxDim) := by
  refine ⟨fun h => by simp [resize_image, h], fun hbig => ?_⟩
  have hno : ¬(img.width ≤ maxDim ∧ img.height ≤ maxDim) := by omega
  refine ⟨fun hwh => by simp [resize_image, hno, hwh], fun hhw => ?_, ?_⟩
  · have hlt : ¬ img.height < img.width := by omega
    simp [resize_image, hno, hlt]
  · by_cases hwh : img.height < img.width
    · have hw : 0 < img.width := by omega
      have hle : img.height * maxDim / img.width ≤ maxDim := by
        calc img.height * maxDim / img.width
            ≤ img.width * maxDim / img.width :=
              Nat.div_le_div_right (Nat.mul_le_mul_right _ (le_of_lt hwh))
          _ = maxDim := Nat.mul_div_cancel_left _ hw
      simp [resize_image, hno, hwh, max_eq_left hle]
    · have hh : 0 < img.height := by omega
      have hle : img.width * maxDim / img.height ≤ maxDim := by
        calc img.width * maxDim / img.height
            ≤ img.height * maxDim / img.height :=
              Nat.div_le_div_right (Nat.mul_le_mul_right _ (by omega))
          _ = maxDim := Nat.mul_div_cancel_left _ hh
      simp [resize_image, hno, hwh, max_eq_right hle]

/-- Claim C5 counterexample: a 3000 x 1000 image bound by 2048 gets height
`int(1000 * 2048 / 3000) = 682`, not the nearest-rounded value 683 the
claim states. -/
theorem resize_image_not_round_nearest :
    (resize_image 2048 { width := 3000, height := 1000, mode := Mode.RGB }).height
      ≠ roundNearest (1000 * 2048) 3000 := by decide

/-- Claim C5 witness: the amended statement evaluated on the 3000 x 1000
image. -/
theorem resize_image_spec_witness :
    resize_image 2048 { width := 3000, height := 1000, mode := Mode.RGB }
      = { width := 2048, height := 682, mode := Mode.RGB } := by
  have h := ((resize_image_spec 2048
      { width := 3000, height := 1000, mode := Mode.RGB }).2
      (by decide)).1 (by decide)
  rw [h]
  decide

/-- Claim C6 (amended): the normalized image handed to the backend is
3-channel RGB when the preprocess flag is off or when preprocessing fails,
but with the preprocess flag on and preprocessing succeeding it is the
single-channel `L` image produced by `Image.fromarray` of the thresholded
2-D array. -/
theorem prepare_image_mode_spec (maxDim : Nat) (img : PILImage) (cvOk : Bool) :
    (prepare_image maxDim cvOk img false).mode = Mode.RGB ∧
    (prepare_image maxDim false img true).mode = Mode.RGB ∧
    (prepare_image maxDim true img true).mode = Mode.L := by
  refine ⟨?_, ?_, ?_⟩ <;>
    simp [prepare_image, preprocess_for_ocr, resize_image_mode, convert_rgb_mode]

/-- Claim C6 counterexample: an RGB image prepared with the preprocess flag
set (and preprocessing succeeding, as on the main `/extract` path) reaches
the backend in single-channel mode, not 3-channel. -/
theorem prepare_image_mode_counterexample :
    (prepare_image 2048 true { width := 100, height := 50, mode := Mode.RGB }
        true).mode ≠ Mode.RGB := by decide

/-- Claim C7: when the preprocessing block fails (oracle `false`), the
`except` handler inside `preprocess_for_ocr` returns its input unchanged,
so `prepare_image` still returns the resized, RGB-converted image - the
same image the `preprocess = False` run returns - and never propagates the
fault. -/
theorem prepare_image_fallback (maxDim : Nat) (img : PILImage) :
    prepare_image maxDim false img true
        = resize_image maxDim (convert_rgb img) ∧
    prepare_image maxDim false img true = prepare_image maxDim false img false ∧
    (prepare_image maxDim false img true).mode = Mode.RGB := by
  refine ⟨?_, ?_, ?_⟩ <;>
    simp [prepare_image, preprocess_for_ocr, resize_image_mode, convert_rgb_mode]

/-- Claim C9: a base64 payload with a leading data-URL part (everything up
to and including the first comma, itself comma-free) and the bare payload
decode to the same image, because `base64_to_image` strips `split(',')[1]`
before delegating to the decoder. -/
theorem base64_dataurl_eq (decode : List Char → Option PILImage)
    (q p : List Char) (hq : ',' ∉ q) (hp : ',' ∉ p) :
    base64_to_image decode (q ++ ',' :: p) = base64_to_image decode p := by
  unfold base64_to_image dropDataUrl
  have h1 : ',' ∈ q ++ ',' :: p :=
    List.mem_append_right q (List.mem_cons_self ',' p)
  rw [if_pos h1, if_neg hp, splitComma_append q p hq, splitComma_no_comma p hp]
  rfl

/-- Claim C9 witness: the JPEG data-URL from the spec and the bare payload
give the same decoder input and hence the same image. -/
theorem base64_dataurl_eq_witness :
    base64_to_image
        (fun l => some { width := l.length, height := 1, mode := Mode.RGB })
        ("data:image/jpeg;base64".toList ++ ',' :: "AAAA".toList)
      = base64_to_image
          (fun l => some { width := l.length, height := 1, mode := Mode.RGB })
          "AAAA".toList :=
  base64_dataurl_eq _ _ _ (by decide) (by decide)

/-- Claim C1 (code bug): with the authenticated POST answered 403 and the
unauthenticated retry poised to answer 200 with generated text, the claimed
degrade-to-free-tier retry does not happen.  Line 114 of model_service.py
reads `settings.API_timeout`, but config.py (case-sensitive) defines only
`API_TIMEOUT`, so an `AttributeError` fires before the retry POST is
issued; the blanket handler turns it into a raised `RuntimeError`.  Exactly
one (authenticated) request goes out and no successful result is
returned. -/
theorem extract_text_auth_retry_bug :
    ModelService.extract_text svc0 env403then200 img0 512
        = Except.error (PyErr.runtimeError attrErrMsg) ∧
    ModelService.requests svc0 env403then200 img0 512
        = [{ url := svc0.api_url, auth := true, contentType := "image/png",
             body := img0 }] ∧
    settingsHasAttr "API_timeout" = false ∧
    settingsHasAttr "API_TIMEOUT" = true := by
  refine ⟨rfl, ?_, rfl, rfl⟩
  decide

/-- Claim C2 counterexample: a 500 response makes `extract_text` raise a
`RuntimeError` (the `Except.error` outcome) instead of returning a failed
result - the adapter does let an exception past. -/
theorem extract_text_500_raises :
    ModelService.extract_text svc0 env500 img0 512
      = Except.error (PyErr.runtimeError
          "OCR processing failed: API request failed: 500 - boom") := rfl

/-- Claim C2 (amended): on a loaded service, any status outside
{200, 403, 410, 503} makes `extract_text` raise `RuntimeError` carrying the
status code and response text; a request timeout raises
`RuntimeError` with the timeout message; and a 403 or 410 raises the
rewrapped `AttributeError` before the unauthenticated retry is issued.
Errors surface as raised `RuntimeError`s with diagnostic detail, not as
returned failed results. -/
theorem extract_text_raise_spec (st : ModelService) (env : ApiEnv)
    (img : PILImage) (ml : Nat) (hld : st.is_loaded = true) :
    (∀ status body text, env.resp = HttpOutcome.ok status body text →
      status ≠ 200 → status ≠ 403 → status ≠ 410 → status ≠ 503 →
      ModelService.extract_text st env img ml =
        Except.error (PyErr.runtimeError
          ("OCR processing failed: API request failed: "
            ++ toString status ++ " - " ++ text))) ∧
    (env.resp = HttpOutcome.timeout →
      ModelService.extract_text st env img ml =
        Except.error (PyErr.runtimeError timeoutMsg)) ∧
    (∀ status body text, env.resp = HttpOutcome.ok status body text →
      status = 403 ∨ status = 410 →
      ModelService.extract_text st env img ml =
        Except.error (PyErr.runtimeError attrErrMsg)) := by
  have hs : settingsHasAttr "API_timeout" = false := by decide
  refine ⟨?_, ?_, ?_⟩
  · intro status body text hresp h200 h403 h410 h503
    simp [ModelService.extract_text, hld, hresp, h200, h403, h410, h503]
  · intro hresp
    simp [ModelService.extract_text, hld, hresp]
  · intro status body text hresp hor
    rcases hor with h | h <;> subst h <;>
      simp [ModelService.extract_text, hld, hresp, hs]

/-- Claim C2 witness: the amended statement evaluated at a 404 response. -/
theorem extract_text_raise_spec_witness :
    ModelService.extract_text svc0 env404 img0 512
      = Except.error (PyErr.runtimeError
          "OCR processing failed: API request failed: 404 - Not Found") := by
  have h := (extract_text_raise_spec svc0 env404 img0 512 rfl).1
    404 RespBody.otherJson "Not Found" rfl
    (by decide) (by decide) (by decide) (by decide)
  rw [h]
  simp only [Except.error.injEq, PyErr.runtimeError.injEq]
  decide

/-- Claim C3 counterexample: on the freshly constructed remote-API service
(`load_model` never called) a recognize call does not fail with the
not-initialized error: `__init__` already set `is_loaded = True`, so the
backend POST is issued and a result comes back. -/
theorem fresh_service_not_ready_counterexample :
    ModelService.requests (ModelService.init s0) env503 img0 512 ≠ [] ∧
    ModelService.extract_text (ModelService.init s0) env503 img0 512
      ≠ Except.error (PyErr.runtimeError notInitMsg) := by
  constructor
  · have h : ModelService.requests (ModelService.init s0) env503 img0 512
        = [{ url := (ModelService.init s0).api_url,
             auth := (ModelService.init s0).auth_header,
             contentType := "image/png", body := img0 }] := rfl
    rw [h]
    simp
  · have h : ModelService.extract_text (ModelService.init s0) env503 img0 512
        = Except.ok { text := "", confidence := 0, device := "cloud-api",
                      model := (ModelService.init s0).model_name,
                      error := some loadingMsg } := rfl
    rw [h]
    simp

/-- Claim C3 (amended): `extract_text` fails with the "Service not
initialized" `RuntimeError`, issuing no backend call, exactly when
`is_loaded` is false - a state the remote-API adapter never occupies before
`load_model`, since `__init__` sets `is_loaded = True`; it is entered only
by `cleanup`. -/
theorem not_ready_spec (s : Settings) (st : ModelService) (env : ApiEnv)
    (img : PILImage) (ml : Nat) :
    (ModelService.init s).is_loaded = true ∧
    (ModelService.cleanup st).is_loaded = false ∧
    (st.is_loaded = false →
      ModelService.extract_text st env img ml
          = Except.error (PyErr.runtimeError notInitMsg) ∧
      ModelService.requests st env img ml = []) := by
  refine ⟨rfl, rfl, fun h => ⟨?_, ?_⟩⟩
  · simp [ModelService.extract_text, h]
  · simp [ModelService.requests, h]

/-- Claim C3 witness: after `cleanup` the loaded flag is down and a call
fails with the not-initialized error. -/
theorem not_ready_spec_witness :
    ModelService.extract_text (ModelService.cleanup svc0) env200 img0 512
      = Except.error (PyErr.runtimeError notInitMsg) :=
  ((not_ready_spec s0 (ModelService.cleanup svc0) env200 img0 512).2.2 rfl).1

/-- Claim C4: a 503 response is returned, not raised: the result has empty
text, the fixed placeholder fields, and a non-empty `error` diagnostic
advising a retry. -/
theorem extract_text_503_spec (st : ModelService) (env : ApiEnv)
    (img : PILImage) (ml : Nat) (body : RespBody) (text : String)
    (hld : st.is_loaded = true)
    (hresp : env.resp = HttpOutcome.ok 503 body text) :
    ModelService.extract_text st env img ml
        = Except.ok { text := "", confidence := 0, device := "cloud-api",
                      model := st.model_name, error := some loadingMsg } ∧
    loadingMsg ≠ "" := by
  constructor
  · simp [ModelService.extract_text, hld, hresp]
  · decide

/-- Claim C4 witness: the 503 behaviour evaluated on the concrete
fixtures. -/
theorem extract_text_503_spec_witness :
    ModelService.extract_text svc0 env503 img0 512
      = Except.ok { text := "", confidence := 0, device := "cloud-api",
                    model := svc0.model_name, error := some loadingMsg } :=
  (extract_text_503_spec svc0 env503 img0 512 RespBody.otherJson "" rfl rfl).1

/-- Claim C8: `batch_extract` returns one entry per input image, in input
order; position `i` holds the tagged outcome of running `extract_text` on
image `i`, a failure becoming the error dictionary (empty text, the
exception message, confidence 0) at that position while the rest of the
batch still runs. -/
theorem batch_extract_spec (st : ModelService) (ml : Nat)
    (items : List (PILImage × ApiEnv)) :
    (ModelService.batch_extract st ml items).length = items.length ∧
    ∀ i img env, items.get? i = some (img, env) →
      (ModelService.batch_extract st ml items).get? i
        = some (entryOf (ModelService.extract_text st env img ml)) := by
  constructor
  · rw [batch_extract_eq_map]
    exact List.length_map _ _
  · intro i img env h
    rw [batch_extract_eq_map, List.get?_map, h]
    rfl

/-- Claim C8 witness: a two-image batch whose second call fails with a 500
keeps length 2 and carries the error dictionary at position 1. -/
theorem batch_extract_spec_witness :
    (ModelService.batch_extract svc0 512 [(img0, env200), (img0, env500)]).get? 1
      = some (BatchEntry.err ""
          "OCR processing failed: API request failed: 500 - boom" 0) := by
  have h := (batch_extract_spec svc0 512 [(img0, env200), (img0, env500)]).2
    1 img0 env500 rfl
  rw [h]
  decide

/-- Claim C10: `extract_text` never reads `max_length` (kept for interface
compatibility only): for any two values, both the requests issued and the
outcome are identical. -/
theorem extract_text_max_length_irrelevant (st : ModelService) (env : ApiEnv)
    (img : PILImage) (m1 m2 : Nat) :
    ModelService.extract_text st env img m1
        = ModelService.extract_text st env img m2 ∧
    ModelService.requests st env img m1
        = ModelService.requests st env img m2 :=
  ⟨rfl, rfl⟩
